import Mathlib

/-!
Shallow embedding of the rdb-rs RDB parser (src/parser.rs) over byte lists.

Bytes are modelled as `Nat` (real inputs have every byte `< 256`); a byte
source is a `List Nat` consumed from the front.  Every reading function
returns `Except Fail (result × remaining-input)`.  Rust `Err(..)` results are
`Fail.err ..`; Rust panics (`panic!`, `unwrap`, `assert!`) are `Fail.panicked ..`,
so that error returns and panics stay distinguishable.  The formatter is
modelled as an event trace (each callback appends one `Event`); the filter is
a record of the three predicates.  `f64` values are kept symbolic (`Score`),
since floating point is outside the embedding; the LZF decompressor is an
external collaborator and is passed in as an oracle function.
-/

set_option maxRecDepth 4096

namespace Rdb

/-- Modelled from the spec (§7): error kinds of the `types` module, which is
not under `src/`.  `Io` covers a short read of the underlying source;
`Other` is the `RdbError::Other` produced by `other_error`. -/
inductive RdbError where
  | Io : RdbError
  | Other : String → RdbError
deriving DecidableEq, Repr

/-- Outcome of a failing computation: an error result (Rust `Err`) or a
panic (Rust `panic!` / `.unwrap()` / `assert!`). -/
inductive Fail where
  | err : RdbError → Fail
  | panicked : String → Fail
deriving DecidableEq, Repr

/-- Modelled from the spec (§4.6, §6): the `EncodingType` marker of the
`types` module (not under `src/`), carrying the raw on-disk byte length for
the wrapped encodings. -/
inductive EncodingType where
  | LinkedList : EncodingType
  | Hashtable : EncodingType
  | Ziplist : Nat → EncodingType
  | Zipmap : Nat → EncodingType
  | Intset : Nat → EncodingType
  | Quicklist : EncodingType
deriving DecidableEq, Repr

/-- Modelled from the spec (§3): the `Type` marker of the `types` module
(not under `src/`); `read_linked_list` is only ever called with the list and
set variants. -/
inductive Typ where
  | List : Typ
  | Set : Typ
  | Hash : Typ
  | SortedSet : Typ
deriving DecidableEq, Repr

/-- Modelled from the spec (§3): the `ZiplistEntry` sum of the `types`
module (not under `src/`): a byte string or a signed 64-bit integer. -/
inductive ZiplistEntry where
  | String : List Nat → ZiplistEntry
  | Number : Int → ZiplistEntry
deriving DecidableEq, Repr

/-- A sorted-set score.  `f64` values are kept symbolic: `parsed bs` is the
result of parsing the ASCII bytes `bs`, `f64le bs` the result of reading the
8 bytes `bs` as a little-endian double. -/
inductive Score where
  | nan : Score
  | inf : Score
  | neginf : Score
  | parsed : List Nat → Score
  | f64le : List Nat → Score
deriving DecidableEq, Repr

/-- Modelled from the spec (§6): one formatter callback invocation. -/
inductive Event where
  | start_rdb : Event
  | end_rdb : Event
  | start_database : Nat → Event
  | end_database : Nat → Event
  | checksum : List Nat → Event
  | resizedb : Nat → Nat → Event
  | aux_field : List Nat → List Nat → Event
  | set : List Nat → List Nat → Option Nat → Event
  | start_list : List Nat → Nat → Option Nat → EncodingType → Event
  | list_element : List Nat → List Nat → Event
  | end_list : List Nat → Event
  | start_set : List Nat → Nat → Option Nat → EncodingType → Event
  | set_element : List Nat → List Nat → Event
  | end_set : List Nat → Event
  | start_hash : List Nat → Nat → Option Nat → EncodingType → Event
  | hash_element : List Nat → List Nat → List Nat → Event
  | end_hash : List Nat → Event
  | start_sorted_set : List Nat → Nat → Option Nat → EncodingType → Event
  | sorted_set_element : List Nat → Score → List Nat → Event
  | end_sorted_set : List Nat → Event
deriving DecidableEq, Repr

/-- Modelled from the spec (§6): the filter predicate, three boolean
queries. -/
structure Filter where
  matches_db : Nat → Bool
  matches_type : Nat → Bool
  matches_key : List Nat → Bool

/-- The allow-all filter. -/
def allow_all : Filter := ⟨fun _ => true, fun _ => true, fun _ => true⟩

/-- The deny-all filter. -/
def deny_all : Filter := ⟨fun _ => false, fun _ => false, fun _ => false⟩

/-- The type of the external LZF decompressor oracle: compressed bytes and
declared original length in, decompressed bytes out (`none` = failure). -/
abbrev Lzf := List Nat → Nat → Option (List Nat)

/-- An LZF oracle that always fails. -/
def lzf_none : Lzf := fun _ _ => none

namespace constant

/-- `constant::RDB_MAGIC` = "REDIS" (wire constants are in the spec, §6). -/
def RDB_MAGIC : List Nat := [82, 69, 68, 73, 83]

def RDB_6BITLEN : Nat := 0

def RDB_14BITLEN : Nat := 1

def RDB_32BITLEN : Nat := 2

def RDB_ENCVAL : Nat := 3

end constant

namespace encoding

def INT8 : Nat := 0

def INT16 : Nat := 1

def INT32 : Nat := 2

def LZF : Nat := 3

end encoding

namespace op_code

def AUX : Nat := 250

def RESIZEDB : Nat := 251

def EXPIRETIME_MS : Nat := 252

def EXPIRETIME : Nat := 253

def SELECTDB : Nat := 254

def EOF : Nat := 255

end op_code

namespace encoding_type

def STRING : Nat := 0

def LIST : Nat := 1

def SET : Nat := 2

def ZSET : Nat := 3

def HASH : Nat := 4

def ZSET_2 : Nat := 5

def HASH_ZIPMAP : Nat := 9

def LIST_ZIPLIST : Nat := 10

def SET_INTSET : Nat := 11

def ZSET_ZIPLIST : Nat := 12

def HASH_ZIPLIST : Nat := 13

def LIST_QUICKLIST : Nat := 14

end encoding_type

namespace version

/-- Modelled from the spec: supported version bounds live in the `constants`
module (not under `src/`); the spec fixes v9 as accepted (scenario S1) and
v1 as rejected (scenario S6). -/
def SUPPORTED_MINIMUM : Nat := 2

/-- Modelled from the spec: see `SUPPORTED_MINIMUM`. -/
def SUPPORTED_MAXIMUM : Nat := 9

end version

/-- `input.read_u8()`: one byte off the front, `Io` error at end of input. -/
def readU8 : List Nat → Except Fail (Nat × List Nat)
  | [] => .error (.err .Io)
  | b :: rest => .ok (b, rest)

/-- Modelled from the spec: `helper::read_exact` (not under `src/`) reads
exactly `n` bytes or fails with a short-read error. -/
def read_exact (n : Nat) (input : List Nat) : Except Fail (List Nat × List Nat) :=
  if n ≤ input.length then .ok (input.take n, input.drop n) else .error (.err .Io)

/-- `read_u16::<LittleEndian>()`. -/
def readU16LE : List Nat → Except Fail (Nat × List Nat)
  | b0 :: b1 :: rest => .ok (b0 + (b1 <<< 8), rest)
  | _ => .error (.err .Io)

/-- `read_u32::<LittleEndian>()`. -/
def readU32LE : List Nat → Except Fail (Nat × List Nat)
  | b0 :: b1 :: b2 :: b3 :: rest =>
      .ok (b0 + (b1 <<< 8) + (b2 <<< 16) + (b3 <<< 24), rest)
  | _ => .error (.err .Io)

/-- `read_u32::<BigEndian>()`. -/
def readU32BE : List Nat → Except Fail (Nat × List Nat)
  | b0 :: b1 :: b2 :: b3 :: rest =>
      .ok ((b0 <<< 24) + (b1 <<< 16) + (b2 <<< 8) + b3, rest)
  | _ => .error (.err .Io)

/-- `read_u64::<LittleEndian>()`. -/
def readU64LE : List Nat → Except Fail (Nat × List Nat)
  | b0 :: b1 :: b2 :: b3 :: b4 :: b5 :: b6 :: b7 :: rest =>
      .ok (b0 + (b1 <<< 8) + (b2 <<< 16) + (b3 <<< 24) + (b4 <<< 32) +
             (b5 <<< 40) + (b6 <<< 48) + (b7 <<< 56), rest)
  | _ => .error (.err .Io)

/-- Two's-complement reinterpretation of an unsigned `w`-bit value. -/
def toSigned (w : Nat) (n : Nat) : Int :=
  if n < 2 ^ (w - 1) then (n : Int) else (n : Int) - 2 ^ w

/-- `read_i8()`. -/
def readI8 (input : List Nat) : Except Fail (Int × List Nat) :=
  match readU8 input with
  | .error e => .error e
  | .ok (n, rest) => .ok (toSigned 8 n, rest)

/-- `read_i16::<LittleEndian>()`. -/
def readI16LE (input : List Nat) : Except Fail (Int × List Nat) :=
  match readU16LE input with
  | .error e => .error e
  | .ok (n, rest) => .ok (toSigned 16 n, rest)

/-- `read_i32::<LittleEndian>()`. -/
def readI32LE (input : List Nat) : Except Fail (Int × List Nat) :=
  match readU32LE input with
  | .error e => .error e
  | .ok (n, rest) => .ok (toSigned 32 n, rest)

/-- `read_i64::<LittleEndian>()`. -/
def readI64LE (input : List Nat) : Except Fail (Int × List Nat) :=
  match readU64LE input with
  | .error e => .error e
  | .ok (n, rest) => .ok (toSigned 64 n, rest)

/-- Modelled from the spec (§4.2): `helper::int_to_vec` (not under `src/`)
renders an integer as its decimal ASCII byte representation. -/
def int_to_vec (i : Int) : List Nat :=
  (toString i).toList.map Char.toNat

/-- `read_length_with_encoding`: one byte, branch on its top two bits
(`RDB_ENCVAL = 3`, `RDB_6BITLEN = 0`, `RDB_14BITLEN = 1`, else 32-bit BE). -/
def read_length_with_encoding (input : List Nat) :
    Except Fail ((Nat × Bool) × List Nat) :=
  match readU8 input with
  | .error e => .error e
  | .ok (enc_type, input) =>
    if (enc_type &&& 0xC0) >>> 6 = constant.RDB_ENCVAL then
      .ok ((enc_type &&& 0x3F, true), input)
    else if (enc_type &&& 0xC0) >>> 6 = constant.RDB_6BITLEN then
      .ok ((enc_type &&& 0x3F, false), input)
    else if (enc_type &&& 0xC0) >>> 6 = constant.RDB_14BITLEN then
      match readU8 input with
      | .error e => .error e
      | .ok (next_byte, input) =>
          .ok ((((enc_type &&& 0x3F) <<< 8) ||| next_byte, false), input)
    else
      match readU32BE input with
      | .error e => .error e
      | .ok (length, input) => .ok ((length, false), input)

/-- `read_length`: drop the `is_encoded` flag. -/
def read_length (input : List Nat) : Except Fail (Nat × List Nat) :=
  match read_length_with_encoding input with
  | .error e => .error e
  | .ok ((length, _), input) => .ok (length, input)

/-- Modelled from the spec: the `unwrap_or_panic!` macro of the `helper`
module (not under `src/`) turns an error result into a panic. -/
def unwrap_or_panic {α : Type} : Except Fail α → Except Fail α
  | .error (.err _) => .error (.panicked "unwrap_or_panic")
  | x => x

/-- `verify_magic`: five bytes that must equal `RDB_MAGIC`. -/
def verify_magic (input : List Nat) : Except Fail (Unit × List Nat) :=
  if input.length < 5 then
    .error (.err (.Other "Could not read enough bytes for the magic"))
  else if input.take 5 = constant.RDB_MAGIC then .ok ((), input.drop 5)
  else .error (.err (.Other "Invalid magic string"))

/-- `verify_version`: four ASCII digits; the resulting value must lie in the
supported range.  The digit arithmetic `(b - 48)` is `u8` subtraction,
modelled with a wrap-around at 256. -/
def verify_version (input : List Nat) : Except Fail (Unit × List Nat) :=
  if input.length < 4 then
    .error (.err (.Other "Could not read enough bytes for the version"))
  else
    let d (i : Nat) : Nat := ((input.getD i 0) + 256 - 48) % 256
    let v := d 0 * 1000 + d 1 * 100 + d 2 * 10 + d 3
    if version.SUPPORTED_MINIMUM ≤ v ∧ v ≤ version.SUPPORTED_MAXIMUM then
      .ok ((), input.drop 4)
    else
      .error (.err (.Other ("Version " ++ toString v ++
        " RDB files are not supported. Supported versions are " ++
        toString version.SUPPORTED_MINIMUM ++ "-" ++
        toString version.SUPPORTED_MAXIMUM)))

/-- `read_blob`: a length-prefixed verbatim read, or a packed-integer /
LZF-compressed payload when the length is an encoding code. -/
def read_blob (lzf : Lzf) (input : List Nat) : Except Fail (List Nat × List Nat) :=
  match read_length_with_encoding input with
  | .error e => .error e
  | .ok ((length, is_encoded), input) =>
    if is_encoded then
      if length = encoding.INT8 then
        match readI8 input with
        | .error e => .error e
        | .ok (i, input) => .ok (int_to_vec i, input)
      else if length = encoding.INT16 then
        match readI16LE input with
        | .error e => .error e
        | .ok (i, input) => .ok (int_to_vec i, input)
      else if length = encoding.INT32 then
        match readI32LE input with
        | .error e => .error e
        | .ok (i, input) => .ok (int_to_vec i, input)
      else if length = encoding.LZF then
        match read_length input with
        | .error e => .error e
        | .ok (compressed_length, input) =>
          match read_length input with
          | .error e => .error e
          | .ok (real_length, input) =>
            match read_exact compressed_length input with
            | .error e => .error e
            | .ok (data, input) =>
              match lzf data real_length with
              | some out => .ok (out, input)
              | none => .error (.panicked "lzf decompress failed")
      else .error (.panicked ("Unknown encoding: " ++ Nat.repr length))
    else
      read_exact length input

/-- `read_ziplist_metadata`: `zlbytes` (u32 LE), `zltail` (u32 LE),
`zllen` (u16 LE). -/
def read_ziplist_metadata (input : List Nat) :
    Except Fail ((Nat × Nat × Nat) × List Nat) :=
  match readU32LE input with
  | .error e => .error e
  | .ok (zlbytes, input) =>
    match readU32LE input with
    | .error e => .error e
    | .ok (zltail, input) =>
      match readU16LE input with
      | .error e => .error e
      | .ok (zllen, input) => .ok ((zlbytes, zltail, zllen), input)

/-- Two's-complement reinterpretation of a `Nat` as an `i32`. -/
def toI32 (n : Nat) : Int :=
  if n % 4294967296 < 2147483648 then ((n % 4294967296 : Nat) : Int)
  else ((n % 4294967296 : Nat) : Int) - 4294967296

/-- The 24-bit integer expression of `read_ziplist_entry` on bytes
`bytes[0], bytes[1], bytes[2]`:
`(((bytes[2] as i32) << 24) ^ ((bytes[1] as i32) << 16) ^ ((bytes[0] as i32) << 8) ^ 48) >> 8`
(`>>` on `i32` is an arithmetic shift, i.e. flooring division by 256). -/
def twentyFourBitNumber (b0 b1 b2 : Nat) : Int :=
  Int.fdiv (toI32 ((((b2 <<< 24) ^^^ (b1 <<< 16)) ^^^ (b0 <<< 8)) ^^^ 48)) 256

/-- `read_ziplist_entry`: previous-entry length (1 or 5 bytes), a flag byte,
then either a length-prefixed string or a packed integer. -/
def read_ziplist_entry (zl : List Nat) : Except Fail (ZiplistEntry × List Nat) :=
  match readU8 zl with
  | .error e => .error e
  | .ok (byte, zl) =>
    match (if byte = 254 then
             (if zl.length < 4 then
                .error (Fail.err (RdbError.Other
                  "Could not read 4 bytes to skip after ziplist length"))
              else Except.ok (zl.drop 4))
           else Except.ok zl) with
    | .error e => .error e
    | .ok zl =>
      match readU8 zl with
      | .error e => .error e
      | .ok (flag, zl) =>
        if (flag &&& 0xC0) >>> 6 = 0 then
          match read_exact (flag &&& 0x3F) zl with
          | .error e => .error e
          | .ok (rawval, zl) => .ok (.String rawval, zl)
        else if (flag &&& 0xC0) >>> 6 = 1 then
          match readU8 zl with
          | .error e => .error e
          | .ok (next_byte, zl) =>
            match read_exact (((flag &&& 0x3F) <<< 8) ||| next_byte) zl with
            | .error e => .error e
            | .ok (rawval, zl) => .ok (.String rawval, zl)
        else if (flag &&& 0xC0) >>> 6 = 2 then
          match readU32BE zl with
          | .error e => .error e
          | .ok (length, zl) =>
            match read_exact length zl with
            | .error e => .error e
            | .ok (rawval, zl) => .ok (.String rawval, zl)
        else
          if (flag &&& 0xF0) >>> 4 = 0xC then
            match readI16LE zl with
            | .error e => .error e
            | .ok (n, zl) => .ok (.Number n, zl)
          else if (flag &&& 0xF0) >>> 4 = 0xD then
            match readI32LE zl with
            | .error e => .error e
            | .ok (n, zl) => .ok (.Number n, zl)
          else if (flag &&& 0xF0) >>> 4 = 0xE then
            match readI64LE zl with
            | .error e => .error e
            | .ok (n, zl) => .ok (.Number n, zl)
          else if (flag &&& 0xF0) >>> 4 = 0xF then
            if flag &&& 0xF = 0 then
              if zl.length < 3 then
                .error (.err (.Other "Could not read enough bytes for 24bit number"))
              else
                .ok (.Number (twentyFourBitNumber (zl.getD 0 0) (zl.getD 1 0) (zl.getD 2 0)),
                     zl.drop 3)
            else if flag &&& 0xF = 0xE then
              match readI8 zl with
              | .error e => .error e
              | .ok (n, zl) => .ok (.Number n, zl)
            else .ok (.Number (((flag &&& 0xF : Nat) : Int) - 1), zl)
          else .error (.panicked ("Flag not handled: " ++ Nat.repr flag))

/-- `read_ziplist_entry_string`: stringify integer entries. -/
def read_ziplist_entry_string (zl : List Nat) : Except Fail (List Nat × List Nat) :=
  match read_ziplist_entry zl with
  | .error e => .error e
  | .ok (.String val, zl) => .ok (val, zl)
  | .ok (.Number val, zl) => .ok (int_to_vec val, zl)

/-- The element loop of `read_linked_list` (`while len > 0`), emitting one
`list_element` per blob. -/
def read_linked_list_items (lzf : Lzf) (key : List Nat) :
    Nat → List Nat → Except Fail (List Event × List Nat)
  | 0, input => .ok ([], input)
  | len + 1, input =>
    match read_blob lzf input with
    | .error e => .error e
    | .ok (blob, input) =>
      match read_linked_list_items lzf key len input with
      | .error e => .error e
      | .ok (evs, input) => .ok (.list_element key blob :: evs, input)

/-- `read_linked_list` (LIST and SET tags): length prefix, then one blob per
element; note the source emits `list_element` events for both kinds. -/
def read_linked_list (lzf : Lzf) (exp : Option Nat) (key : List Nat) (typ : Typ)
    (input : List Nat) : Except Fail (List Event × List Nat) :=
  match read_length input with
  | .error e => .error e
  | .ok (len, input) =>
    match (match typ with
           | .List => Except.ok (Event.start_list key len exp .LinkedList)
           | .Set => Except.ok (Event.start_set key len exp .LinkedList)
           | _ => Except.error (Fail.panicked "Unknown encoding type for linked list")) with
    | .error e => .error e
    | .ok startEv =>
      match read_linked_list_items lzf key len input with
      | .error e => .error e
      | .ok (evs, input) =>
        match (match typ with
               | .List => Except.ok (Event.end_list key)
               | .Set => Except.ok (Event.end_set key)
               | _ => Except.error (Fail.panicked "Unknown encoding type for linked list")) with
        | .error e => .error e
        | .ok endEv => .ok (startEv :: evs ++ [endEv], input)

/-- The element loop of `read_sorted_set_type_2`: a blob plus an 8-byte LE
`f64` score per element. -/
def read_sorted_set_type_2_items (lzf : Lzf) (key : List Nat) :
    Nat → List Nat → Except Fail (List Event × List Nat)
  | 0, input => .ok ([], input)
  | n + 1, input =>
    match read_blob lzf input with
    | .error e => .error e
    | .ok (val, input) =>
      match read_exact 8 input with
      | .error e => .error e
      | .ok (scoreBytes, input) =>
        match read_sorted_set_type_2_items lzf key n input with
        | .error e => .error e
        | .ok (evs, input) =>
            .ok (.sorted_set_element key (.f64le scoreBytes) val :: evs, input)

/-- `read_sorted_set_type_2` (ZSET_2): length prefix, then value blob +
8-byte LE double per element. -/
def read_sorted_set_type_2 (lzf : Lzf) (exp : Option Nat) (key : List Nat)
    (input : List Nat) : Except Fail (List Event × List Nat) :=
  match unwrap_or_panic (read_length input) with
  | .error e => .error e
  | .ok (set_items, input) =>
    match read_sorted_set_type_2_items lzf key set_items input with
    | .error e => .error e
    | .ok (evs, input) =>
      .ok (.start_sorted_set key set_items exp .Hashtable :: evs ++
             [.end_sorted_set key], input)

/-- The element loop of `read_sorted_set`: a blob, then a raw one-byte score
length (253/254/255 denote NaN and the infinities), then that many ASCII bytes parsed as
`f64` (kept symbolic). -/
def read_sorted_set_items (lzf : Lzf) (key : List Nat) :
    Nat → List Nat → Except Fail (List Event × List Nat)
  | 0, input => .ok ([], input)
  | n + 1, input =>
    match read_blob lzf input with
    | .error e => .error e
    | .ok (val, input) =>
      match readU8 input with
      | .error e => .error e
      | .ok (score_length, input) =>
        match (if score_length = 253 then Except.ok ((Score.nan, input))
               else if score_length = 254 then Except.ok ((Score.inf, input))
               else if score_length = 255 then Except.ok ((Score.neginf, input))
               else
                 match read_exact score_length input with
                 | .error e => .error e
                 | .ok (tmp, input) => .ok ((Score.parsed tmp, input))) with
        | .error e => .error e
        | .ok (score, input) =>
          match read_sorted_set_items lzf key n input with
          | .error e => .error e
          | .ok (evs, input) => .ok (.sorted_set_element key score val :: evs, input)

/-- `read_sorted_set` (ZSET v1): length prefix, then value blob + length-
prefixed ASCII score per element. -/
def read_sorted_set (lzf : Lzf) (exp : Option Nat) (key : List Nat)
    (input : List Nat) : Except Fail (List Event × List Nat) :=
  match unwrap_or_panic (read_length input) with
  | .error e => .error e
  | .ok (set_items, input) =>
    match read_sorted_set_items lzf key set_items input with
    | .error e => .error e
    | .ok (evs, input) =>
      .ok (.start_sorted_set key set_items exp .Hashtable :: evs ++
             [.end_sorted_set key], input)

/-- The element loop of `read_hash`: field and value blobs per element. -/
def read_hash_items (lzf : Lzf) (key : List Nat) :
    Nat → List Nat → Except Fail (List Event × List Nat)
  | 0, input => .ok ([], input)
  | n + 1, input =>
    match read_blob lzf input with
    | .error e => .error e
    | .ok (field, input) =>
      match read_blob lzf input with
      | .error e => .error e
      | .ok (val, input) =>
        match read_hash_items lzf key n input with
        | .error e => .error e
        | .ok (evs, input) => .ok (.hash_element key field val :: evs, input)

/-- `read_hash` (HASH): length prefix, then field/value blob pairs. -/
def read_hash (lzf : Lzf) (exp : Option Nat) (key : List Nat)
    (input : List Nat) : Except Fail (List Event × List Nat) :=
  match read_length input with
  | .error e => .error e
  | .ok (hash_items, input) =>
    match read_hash_items lzf key hash_items input with
    | .error e => .error e
    | .ok (evs, input) =>
      .ok (.start_hash key hash_items exp .Hashtable :: evs ++ [.end_hash key], input)

/-- The entry loop of `read_list_ziplist`: `zllen` entries, one
`list_element` each. -/
def read_list_ziplist_entries (key : List Nat) :
    Nat → List Nat → Except Fail (List Event × List Nat)
  | 0, zl => .ok ([], zl)
  | n + 1, zl =>
    match read_ziplist_entry_string zl with
    | .error e => .error e
    | .ok (entry, zl) =>
      match read_list_ziplist_entries key n zl with
      | .error e => .error e
      | .ok (evs, zl) => .ok (.list_element key entry :: evs, zl)

/-- `read_list_ziplist` (LIST_ZIPLIST): outer blob, ziplist header, `zllen`
entries, `0xFF` terminator. -/
def read_list_ziplist (lzf : Lzf) (exp : Option Nat) (key : List Nat)
    (input : List Nat) : Except Fail (List Event × List Nat) :=
  match read_blob lzf input with
  | .error e => .error e
  | .ok (ziplist, input) =>
    let raw_length := ziplist.length
    match read_ziplist_metadata ziplist with
    | .error e => .error e
    | .ok ((_zlbytes, _zltail, zllen), reader) =>
      match read_list_ziplist_entries key zllen reader with
      | .error e => .error e
      | .ok (evs, reader) =>
        match readU8 reader with
        | .error e => .error e
        | .ok (last_byte, _) =>
          if last_byte ≠ 0xFF then
            .error (.err (.Other "Invalid end byte of ziplist"))
          else
            .ok (.start_list key zllen exp (.Ziplist raw_length) :: evs ++
                   [.end_list key], input)

/-- The pair loop of `read_hash_ziplist`: `zllen` (already halved) pairs of
field and value entries. -/
def read_hash_ziplist_pairs (key : List Nat) :
    Nat → List Nat → Except Fail (List Event × List Nat)
  | 0, zl => .ok ([], zl)
  | n + 1, zl =>
    match read_ziplist_entry_string zl with
    | .error e => .error e
    | .ok (field, zl) =>
      match read_ziplist_entry_string zl with
      | .error e => .error e
      | .ok (value, zl) =>
        match read_hash_ziplist_pairs key n zl with
        | .error e => .error e
        | .ok (evs, zl) => .ok (.hash_element key field value :: evs, zl)

/-- `read_hash_ziplist` (HASH_ZIPLIST): outer blob, ziplist header,
`assert!(zllen % 2 == 0)`, then `zllen / 2` field/value pairs; the halving
happens before `start_hash` is emitted. -/
def read_hash_ziplist (lzf : Lzf) (exp : Option Nat) (key : List Nat)
    (input : List Nat) : Except Fail (List Event × List Nat) :=
  match read_blob lzf input with
  | .error e => .error e
  | .ok (ziplist, input) =>
    let raw_length := ziplist.length
    match read_ziplist_metadata ziplist with
    | .error e => .error e
    | .ok ((_zlbytes, _zltail, zllen), reader) =>
      if zllen % 2 ≠ 0 then .error (.panicked "assertion failed: zllen % 2 == 0")
      else
        let zllen := zllen / 2
        match read_hash_ziplist_pairs key zllen reader with
        | .error e => .error e
        | .ok (evs, reader) =>
          match readU8 reader with
          | .error e => .error e
          | .ok (last_byte, _) =>
            if last_byte ≠ 0xFF then
              .error (.err (.Other "Invalid end byte of ziplist"))
            else
              .ok (.start_hash key zllen exp (.Ziplist raw_length) :: evs ++
                     [.end_hash key], input)

/-- The pair loop of `read_sortedset_ziplist`: entry and score-string pairs;
the score bytes are parsed as `f64` (kept symbolic). -/
def read_sortedset_ziplist_pairs (key : List Nat) :
    Nat → List Nat → Except Fail (List Event × List Nat)
  | 0, zl => .ok ([], zl)
  | n + 1, zl =>
    match read_ziplist_entry_string zl with
    | .error e => .error e
    | .ok (entry, zl) =>
      match read_ziplist_entry_string zl with
      | .error e => .error e
      | .ok (score, zl) =>
        match read_sortedset_ziplist_pairs key n zl with
        | .error e => .error e
        | .ok (evs, zl) =>
            .ok (.sorted_set_element key (.parsed score) entry :: evs, zl)

/-- `read_sortedset_ziplist` (ZSET_ZIPLIST): outer blob, ziplist header,
`start_sorted_set` with the raw `zllen`, then `assert!(zllen % 2 == 0)` and
`zllen / 2` pairs — note the halving happens only after the start event. -/
def read_sortedset_ziplist (lzf : Lzf) (exp : Option Nat) (key : List Nat)
    (input : List Nat) : Except Fail (List Event × List Nat) :=
  match read_blob lzf input with
  | .error e => .error e
  | .ok (ziplist, input) =>
    let raw_length := ziplist.length
    match read_ziplist_metadata ziplist with
    | .error e => .error e
    | .ok ((_zlbytes, _zltail, zllen), reader) =>
      let startEv := Event.start_sorted_set key zllen exp (.Ziplist raw_length)
      if zllen % 2 ≠ 0 then .error (.panicked "assertion failed: zllen % 2 == 0")
      else
        let zllen := zllen / 2
        match read_sortedset_ziplist_pairs key zllen reader with
        | .error e => .error e
        | .ok (evs, reader) =>
          match readU8 reader with
          | .error e => .error e
          | .ok (last_byte, _) =>
            if last_byte ≠ 0xFF then
              .error (.err (.Other "Invalid end byte of ziplist"))
            else
              .ok (startEv :: evs ++ [.end_sorted_set key], input)

/-- The entry loop of `read_quicklist_ziplist`: `zllen` entries, one
`list_element` each. -/
def read_quicklist_ziplist_entries (key : List Nat) :
    Nat → List Nat → Except Fail (List Event × List Nat)
  | 0, zl => .ok ([], zl)
  | n + 1, zl =>
    match read_ziplist_entry_string zl with
    | .error e => .error e
    | .ok (entry, zl) =>
      match read_quicklist_ziplist_entries key n zl with
      | .error e => .error e
      | .ok (evs, zl) => .ok (.list_element key entry :: evs, zl)

/-- `read_quicklist_ziplist`: one inner ziplist of a quicklist; emits only
`list_element` events, no start or end events. -/
def read_quicklist_ziplist (lzf : Lzf) (key : List Nat)
    (input : List Nat) : Except Fail (List Event × List Nat) :=
  match read_blob lzf input with
  | .error e => .error e
  | .ok (ziplist, input) =>
    match read_ziplist_metadata ziplist with
    | .error e => .error e
    | .ok ((_zlbytes, _zltail, zllen), reader) =>
      match read_quicklist_ziplist_entries key zllen reader with
      | .error e => .error e
      | .ok (evs, reader) =>
        match readU8 reader with
        | .error e => .error e
        | .ok (last_byte, _) =>
          if last_byte ≠ 0xFF then
            .error (.err (.Other "Invalid end byte of ziplist (quicklist)"))
          else .ok (evs, input)

/-- `read_zipmap_entry`: a length byte (253 = explicit 32-bit LE length;
254/255 are invalid and panic), then that many bytes.  The 253 branch calls
`.unwrap()` on the inner read, hence a panic on a short read. -/
def read_zipmap_entry (next_byte : Nat) (zipmap : List Nat) :
    Except Fail (List Nat × List Nat) :=
  match (if next_byte = 253 then
           match readU32LE zipmap with
           | .error _ => Except.error (Fail.panicked "unwrap of zipmap length read")
           | .ok (n, zm) => Except.ok ((n, zm))
         else if next_byte = 254 ∨ next_byte = 255 then
           Except.error (Fail.panicked ("Invalid length value in zipmap: " ++ Nat.repr next_byte))
         else Except.ok ((next_byte, zipmap))) with
  | .error e => .error e
  | .ok (elem_len, zipmap) => read_exact elem_len zipmap

/-- The pair loop of `read_hash_zipmap`: read a length byte; stop on `0xFF`;
otherwise read a field, a value length byte, a free byte, and a value; after
`length` reaches zero expect the terminator immediately.  `fuel` bounds the
iteration count; each iteration consumes at least one byte of the zipmap, so
`zipmap.length + 1` iterations are never exhausted. -/
def read_hash_zipmap_pairs (key : List Nat) :
    Nat → Int → List Nat → Except Fail (List Event × List Nat)
  | 0, _, _ => .error (.panicked "zipmap loop fuel exhausted")
  | fuel + 1, length, zm =>
    match readU8 zm with
    | .error e => .error e
    | .ok (next_byte, zm) =>
      if next_byte = 0xFF then .ok ([], zm)
      else
        match read_zipmap_entry next_byte zm with
        | .error e => .error e
        | .ok (field, zm) =>
          match readU8 zm with
          | .error e => .error e
          | .ok (next_byte, zm) =>
            match readU8 zm with
            | .error e => .error e
            | .ok (_free, zm) =>
              match read_zipmap_entry next_byte zm with
              | .error e => .error e
              | .ok (value, zm) =>
                let length := if length > 0 then length - 1 else length
                if length = 0 then
                  match readU8 zm with
                  | .error e => .error e
                  | .ok (last_byte, zm) =>
                    if last_byte ≠ 0xFF then
                      .error (.err (.Other "Invalid end byte of zipmap"))
                    else .ok ([.hash_element key field value], zm)
                else
                  match read_hash_zipmap_pairs key fuel length zm with
                  | .error e => .error e
                  | .ok (evs, zm) => .ok (.hash_element key field value :: evs, zm)

/-- `read_hash_zipmap` (HASH_ZIPMAP): outer blob, `zmlen` byte; `zmlen ≤ 254`
is used as literal count and start size, `zmlen = 255` means unknown
(`length = -1`, size 0); then the pair loop. -/
def read_hash_zipmap (lzf : Lzf) (exp : Option Nat) (key : List Nat)
    (input : List Nat) : Except Fail (List Event × List Nat) :=
  match read_blob lzf input with
  | .error e => .error e
  | .ok (zipmap, input) =>
    let raw_length := zipmap.length
    match readU8 zipmap with
    | .error e => .error e
    | .ok (zmlen, reader) =>
      let length : Int := if zmlen ≤ 254 then (zmlen : Int) else -1
      let size : Nat := if zmlen ≤ 254 then zmlen else 0
      match read_hash_zipmap_pairs key (reader.length + 1) length reader with
      | .error e => .error e
      | .ok (evs, _) =>
        .ok (.start_hash key size exp (.Zipmap raw_length) :: evs ++
               [.end_hash key], input)

/-- The value loop of `read_set_intset`: `n` signed LE integers of width
`byte_size` (2, 4 or 8; anything else panics), each emitted as decimal
ASCII. -/
def read_set_intset_items (key : List Nat) (byte_size : Nat) :
    Nat → List Nat → Except Fail (List Event × List Nat)
  | 0, r => .ok ([], r)
  | n + 1, r =>
    match (if byte_size = 2 then readI16LE r
           else if byte_size = 4 then readI32LE r
           else if byte_size = 8 then readI64LE r
           else Except.error (Fail.panicked
               ("unhandled byte size in intset: " ++ Nat.repr byte_size))) with
    | .error e => .error e
    | .ok (val, r) =>
      match read_set_intset_items key byte_size n r with
      | .error e => .error e
      | .ok (evs, r) => .ok (.set_element key (int_to_vec val) :: evs, r)

/-- `read_set_intset` (SET_INTSET): outer blob, `byte_size` and count (u32
LE each), then the packed integers. -/
def read_set_intset (lzf : Lzf) (exp : Option Nat) (key : List Nat)
    (input : List Nat) : Except Fail (List Event × List Nat) :=
  match read_blob lzf input with
  | .error e => .error e
  | .ok (intset, input) =>
    let raw_length := intset.length
    match readU32LE intset with
    | .error e => .error e
    | .ok (byte_size, reader) =>
      match readU32LE reader with
      | .error e => .error e
      | .ok (intset_length, reader) =>
        match read_set_intset_items key byte_size intset_length reader with
        | .error e => .error e
        | .ok (evs, _) =>
          .ok (.start_set key intset_length exp (.Intset raw_length) :: evs ++
                 [.end_set key], input)

/-- The ziplist loop of `read_quicklist`: `len` inner ziplists. -/
def read_quicklist_parts (lzf : Lzf) (key : List Nat) :
    Nat → List Nat → Except Fail (List Event × List Nat)
  | 0, input => .ok ([], input)
  | n + 1, input =>
    match read_quicklist_ziplist lzf key input with
    | .error e => .error e
    | .ok (evs, input) =>
      match read_quicklist_parts lzf key n input with
      | .error e => .error e
      | .ok (evs2, input) => .ok (evs ++ evs2, input)

/-- `read_quicklist` (LIST_QUICKLIST): length prefix of inner ziplists; the
source frames the record with `start_set`/`end_set` events (count 0) around
the concatenated `list_element` events. -/
def read_quicklist (lzf : Lzf) (exp : Option Nat) (key : List Nat)
    (input : List Nat) : Except Fail (List Event × List Nat) :=
  match read_length input with
  | .error e => .error e
  | .ok (len, input) =>
    match read_quicklist_parts lzf key len input with
    | .error e => .error e
    | .ok (evs, input) =>
      .ok (.start_set key 0 exp .Quicklist :: evs ++ [.end_set key], input)

/-- `read_type`: the value-type dispatcher, one branch per encoding tag;
unknown tags panic. -/
def read_type (lzf : Lzf) (exp : Option Nat) (key : List Nat) (value_type : Nat)
    (input : List Nat) : Except Fail (List Event × List Nat) :=
  if value_type = encoding_type.STRING then
    match read_blob lzf input with
    | .error e => .error e
    | .ok (val, input) => .ok ([.set key val exp], input)
  else if value_type = encoding_type.LIST then
    read_linked_list lzf exp key .List input
  else if value_type = encoding_type.SET then
    read_linked_list lzf exp key .Set input
  else if value_type = encoding_type.ZSET then
    read_sorted_set lzf exp key input
  else if value_type = encoding_type.ZSET_2 then
    read_sorted_set_type_2 lzf exp key input
  else if value_type = encoding_type.HASH then
    read_hash lzf exp key input
  else if value_type = encoding_type.HASH_ZIPMAP then
    read_hash_zipmap lzf exp key input
  else if value_type = encoding_type.LIST_ZIPLIST then
    read_list_ziplist lzf exp key input
  else if value_type = encoding_type.SET_INTSET then
    read_set_intset lzf exp key input
  else if value_type = encoding_type.ZSET_ZIPLIST then
    read_sortedset_ziplist lzf exp key input
  else if value_type = encoding_type.HASH_ZIPLIST then
    read_hash_ziplist lzf exp key input
  else if value_type = encoding_type.LIST_QUICKLIST then
    read_quicklist lzf exp key input
  else
    .error (.panicked ("Value Type not implemented: " ++ Nat.repr value_type))

/-- `skip`: discard exactly `skip_bytes` bytes (`read_exact` into a scratch
buffer). -/
def skip (skip_bytes : Nat) (input : List Nat) : Except Fail (Unit × List Nat) :=
  match read_exact skip_bytes input with
  | .error e => .error e
  | .ok (_, input) => .ok ((), input)

/-- `skip_blob`: advance the cursor past one blob, reading only its header;
the length reads go through `unwrap_or_panic!` and unknown encoding codes
panic. -/
def skip_blob (input : List Nat) : Except Fail (Unit × List Nat) :=
  match unwrap_or_panic (read_length_with_encoding input) with
  | .error e => .error e
  | .ok ((len, is_encoded), input) =>
    if is_encoded then
      if len = encoding.INT8 then skip 1 input
      else if len = encoding.INT16 then skip 2 input
      else if len = encoding.INT32 then skip 4 input
      else if len = encoding.LZF then
        match unwrap_or_panic (read_length input) with
        | .error e => .error e
        | .ok (compressed_length, input) =>
          match unwrap_or_panic (read_length input) with
          | .error e => .error e
          | .ok (_real_length, input) => skip compressed_length input
      else .error (.panicked ("Unknown encoding: " ++ Nat.repr len))
    else
      skip len input

/-- The blob loop of `skip_object`. -/
def skip_blobs : Nat → List Nat → Except Fail (Unit × List Nat)
  | 0, input => .ok ((), input)
  | n + 1, input =>
    match skip_blob input with
    | .error e => .error e
    | .ok (_, input) => skip_blobs n input

/-- The element loop of the ZSET_2 branch of `skip_object`: one blob plus 8
raw bytes per element. -/
def skip_zset2_items : Nat → List Nat → Except Fail (Unit × List Nat)
  | 0, input => .ok ((), input)
  | n + 1, input =>
    match skip_blob input with
    | .error e => .error e
    | .ok (_, input) =>
      match skip 8 input with
      | .error e => .error e
      | .ok (_, input) => skip_zset2_items n input

/-- `skip_object`: advance the cursor past one value record without
materializing it; the blob count comes from the encoding tag (plus one
length prefix where needed). -/
def skip_object (enc_type : Nat) (input : List Nat) : Except Fail (Unit × List Nat) :=
  if enc_type = encoding_type.STRING ∨ enc_type = encoding_type.HASH_ZIPMAP ∨
     enc_type = encoding_type.LIST_ZIPLIST ∨ enc_type = encoding_type.SET_INTSET ∨
     enc_type = encoding_type.ZSET_ZIPLIST ∨ enc_type = encoding_type.HASH_ZIPLIST then
    skip_blobs 1 input
  else if enc_type = encoding_type.LIST ∨ enc_type = encoding_type.SET ∨
          enc_type = encoding_type.LIST_QUICKLIST then
    match unwrap_or_panic (read_length input) with
    | .error e => .error e
    | .ok (n, input) => skip_blobs n input
  else if enc_type = encoding_type.ZSET ∨ enc_type = encoding_type.HASH then
    match unwrap_or_panic (read_length input) with
    | .error e => .error e
    | .ok (n, input) => skip_blobs (n * 2) input
  else if enc_type = encoding_type.ZSET_2 then
    match read_length input with
    | .error e => .error e
    | .ok (n, input) =>
      match skip_zset2_items n input with
      | .error e => .error e
      | .ok (_, input) => skip_blobs 0 input
  else
    .error (.panicked ("Unknown encoding type: " ++ Nat.repr enc_type))

/-- `skip_key_and_object`: skip the key blob, then the value record. -/
def skip_key_and_object (enc_type : Nat) (input : List Nat) :
    Except Fail (Unit × List Nat) :=
  match skip_blob input with
  | .error e => .error e
  | .ok (_, input) => skip_object enc_type input

/-- The mutable state of the record loop of `parse`: the pending expiration
(field `last_expiretime` of `RdbParser`) and the current database id (local
`last_database`). -/
structure PState where
  last_expiretime : Option Nat
  last_database : Nat
deriving DecidableEq, Repr

/-- One iteration of the record loop of `parse`: read an opcode byte and
dispatch.  Returns the emitted events, the new state, the remaining input
and whether the `EOF` opcode terminated the loop. -/
def parseStep (lzf : Lzf) (filter : Filter) (st : PState) (input : List Nat) :
    Except Fail (List Event × PState × List Nat × Bool) :=
  match readU8 input with
  | .error e => .error e
  | .ok (next_op, input) =>
    if next_op = op_code.SELECTDB then
      match unwrap_or_panic (read_length input) with
      | .error e => .error e
      | .ok (last_database, input) =>
        let evs := if filter.matches_db last_database then
          [Event.start_database last_database] else []
        .ok (evs, { st with last_database := last_database }, input, false)
    else if next_op = op_code.EOF then
      let checksum := input
      let evs := [Event.end_database st.last_database, Event.end_rdb] ++
        (if checksum.length > 0 then [Event.checksum checksum] else [])
      .ok (evs, st, [], true)
    else if next_op = op_code.EXPIRETIME_MS then
      match readU64LE input with
      | .error e => .error e
      | .ok (expiretime_ms, input) =>
        .ok ([], { st with last_expiretime := some expiretime_ms }, input, false)
    else if next_op = op_code.EXPIRETIME then
      match readU32BE input with
      | .error e => .error e
      | .ok (expiretime, input) =>
        .ok ([], { st with last_expiretime := some (expiretime * 1000) }, input, false)
    else if next_op = op_code.RESIZEDB then
      match read_length input with
      | .error e => .error e
      | .ok (db_size, input) =>
        match read_length input with
        | .error e => .error e
        | .ok (expires_size, input) =>
          .ok ([.resizedb db_size expires_size], st, input, false)
    else if next_op = op_code.AUX then
      match read_blob lzf input with
      | .error e => .error e
      | .ok (auxkey, input) =>
        match read_blob lzf input with
        | .error e => .error e
        | .ok (auxval, input) =>
          .ok ([.aux_field auxkey auxval], st, input, false)
    else
      if filter.matches_db st.last_database then
        match read_blob lzf input with
        | .error e => .error e
        | .ok (key, input) =>
          if filter.matches_type next_op ∧ filter.matches_key key then
            match read_type lzf st.last_expiretime key next_op input with
            | .error e => .error e
            | .ok (evs, input) =>
              .ok (evs, { st with last_expiretime := none }, input, false)
          else
            match skip_object next_op input with
            | .error e => .error e
            | .ok (_, input) =>
              .ok ([], { st with last_expiretime := none }, input, false)
      else
        match skip_key_and_object next_op input with
        | .error e => .error e
        | .ok (_, input) =>
          .ok ([], { st with last_expiretime := none }, input, false)

/-- The record loop of `parse`, iterated via `parseStep`.  `fuel` bounds the
number of iterations; every iteration consumes at least the opcode byte, so
a fuel of `input.length + 1` is never exhausted. -/
def parseLoop (lzf : Lzf) (filter : Filter) :
    Nat → PState → List Nat → Except Fail (List Event)
  | 0, _, _ => .error (.panicked "parse loop fuel exhausted")
  | fuel + 1, st, input =>
    match parseStep lzf filter st input with
    | .error e => .error e
    | .ok (evs, st, input, done) =>
      if done then .ok evs
      else
        match parseLoop lzf filter fuel st input with
        | .error e => .error e
        | .ok rest => .ok (evs ++ rest)

/-- `RdbParser::parse`: magic, version, `start_rdb`, then the record loop
with `last_database = 0` and no pending expiration. -/
def parse (lzf : Lzf) (filter : Filter) (input : List Nat) :
    Except Fail (List Event) :=
  match verify_magic input with
  | .error e => .error e
  | .ok (_, input) =>
    match verify_version input with
    | .error e => .error e
    | .ok (_, input) =>
      match parseLoop lzf filter (input.length + 1)
              { last_expiretime := none, last_database := 0 } input with
      | .error e => .error e
      | .ok evs => .ok (.start_rdb :: evs)

/-! ## Consumption lemmas for the primitive readers -/

theorem readU8_rest {input : List Nat} {b rest} (h : readU8 input = .ok (b, rest)) :
    rest = input.drop 1 := by
  cases input with
  | nil => simp [readU8] at h
  | cons b0 t => simp [readU8] at h; simp [h]

theorem readU16LE_rest {input : List Nat} {n rest} (h : readU16LE input = .ok (n, rest)) :
    rest = input.drop 2 := by
  match input with
  | [] => simp [readU16LE] at h
  | [b0] => simp [readU16LE] at h
  | b0 :: b1 :: t => simp [readU16LE] at h; simp [h]

theorem readU32LE_rest {input : List Nat} {n rest} (h : readU32LE input = .ok (n, rest)) :
    rest = input.drop 4 := by
  match input with
  | [] => simp [readU32LE] at h
  | [b0] => simp [readU32LE] at h
  | [b0, b1] => simp [readU32LE] at h
  | [b0, b1, b2] => simp [readU32LE] at h
  | b0 :: b1 :: b2 :: b3 :: t => simp [readU32LE] at h; simp [h]

theorem readU64LE_rest {input : List Nat} {n rest} (h : readU64LE input = .ok (n, rest)) :
    rest = input.drop 8 := by
  match input with
  | [] => simp [readU64LE] at h
  | [b0] => simp [readU64LE] at h
  | [b0, b1] => simp [readU64LE] at h
  | [b0, b1, b2] => simp [readU64LE] at h
  | [b0, b1, b2, b3] => simp [readU64LE] at h
  | [b0, b1, b2, b3, b4] => simp [readU64LE] at h
  | [b0, b1, b2, b3, b4, b5] => simp [readU64LE] at h
  | [b0, b1, b2, b3, b4, b5, b6] => simp [readU64LE] at h
  | b0 :: b1 :: b2 :: b3 :: b4 :: b5 :: b6 :: b7 :: t =>
      simp [readU64LE] at h; simp [h]

theorem read_exact_rest {n : Nat} {input v rest : List Nat}
    (h : read_exact n input = .ok (v, rest)) : rest = input.drop n := by
  unfold read_exact at h
  split at h
  · simp at h; simp [h]
  · simp at h

theorem skip_rest {n : Nat} {input rest : List Nat}
    (h : skip n input = .ok ((), rest)) : rest = input.drop n := by
  unfold skip at h
  cases he : read_exact n input with
  | error e => rw [he] at h; simp at h
  | ok p => rw [he] at h; simp at h; rw [← h]; exact read_exact_rest he

theorem unwrap_or_panic_ok {α : Type} (a : α) :
    unwrap_or_panic (Except.ok a) = Except.ok a := rfl

theorem unwrap_or_panic_error {α : Type} (e : Fail) :
    ∃ s, unwrap_or_panic (α := α) (Except.error e) = Except.error (Fail.panicked s) := by
  cases e with
  | err e => exact ⟨"unwrap_or_panic", rfl⟩
  | panicked s => exact ⟨s, rfl⟩

/-- C3: for every input prefix on which both succeed, `read_blob` and
`skip_blob` consume exactly the same number of bytes: the remaining suffixes
coincide, for plain lengths, for the INT8/INT16/INT32 packed-integer codes,
and for the LZF code, where both read two length fields and then the
compressed byte count. -/
theorem c3_read_blob_skip_blob_same_consumption (lzf : Lzf) (input : List Nat)
    (v : List Nat) (rest rest' : List Nat)
    (hr : read_blob lzf input = .ok (v, rest))
    (hs : skip_blob input = .ok ((), rest')) : rest = rest' := by
  unfold read_blob at hr
  unfold skip_blob at hs
  cases hl : read_length_with_encoding input with
  | error e => rw [hl] at hr; simp at hr
  | ok p =>
    obtain ⟨⟨len, enc⟩, input1⟩ := p
    rw [hl] at hr
    rw [hl, unwrap_or_panic_ok] at hs
    cases enc with
    | false =>
      simp only [Bool.false_eq_true, if_false] at hr hs
      rw [read_exact_rest hr, skip_rest hs]
    | true =>
      simp only [if_true] at hr hs
      by_cases h0 : len = encoding.INT8
      · rw [if_pos h0] at hr hs
        simp only [readI8] at hr
        cases h8 : readU8 input1 with
        | error e => rw [h8] at hr; simp at hr
        | ok q =>
          obtain ⟨b, t⟩ := q
          rw [h8] at hr
          simp at hr
          rw [← hr.2, readU8_rest h8, skip_rest hs]
      · rw [if_neg h0] at hr hs
        by_cases h1 : len = encoding.INT16
        · rw [if_pos h1] at hr hs
          simp only [readI16LE] at hr
          cases h16 : readU16LE input1 with
          | error e => rw [h16] at hr; simp at hr
          | ok q =>
            obtain ⟨b, t⟩ := q
            rw [h16] at hr
            simp at hr
            rw [← hr.2, readU16LE_rest h16, skip_rest hs]
        · rw [if_neg h1] at hr hs
          by_cases h2 : len = encoding.INT32
          · rw [if_pos h2] at hr hs
            simp only [readI32LE] at hr
            cases h32 : readU32LE input1 with
            | error e => rw [h32] at hr; simp at hr
            | ok q =>
              obtain ⟨b, t⟩ := q
              rw [h32] at hr
              simp at hr
              rw [← hr.2, readU32LE_rest h32, skip_rest hs]
          · rw [if_neg h2] at hr hs
            by_cases h3 : len = encoding.LZF
            · rw [if_pos h3] at hr hs
              cases hc : read_length input1 with
              | error e =>
                rw [hc] at hr
                obtain ⟨s, hu⟩ := unwrap_or_panic_error (α := Nat × List Nat) e
                rw [hc, hu] at hs
                simp at hs
              | ok q =>
                obtain ⟨c, input2⟩ := q
                rw [hc] at hr
                rw [hc, unwrap_or_panic_ok] at hs
                dsimp only at hr hs
                cases hrl : read_length input2 with
                | error e =>
                  rw [hrl] at hr
                  obtain ⟨s, hu⟩ := unwrap_or_panic_error (α := Nat × List Nat) e
                  rw [hrl, hu] at hs
                  simp at hs
                | ok q2 =>
                  obtain ⟨r, input3⟩ := q2
                  rw [hrl] at hr
                  rw [hrl, unwrap_or_panic_ok] at hs
                  dsimp only at hr hs
                  cases hre : read_exact c input3 with
                  | error e => rw [hre] at hr; simp at hr
                  | ok q3 =>
                    obtain ⟨data, input4⟩ := q3
                    rw [hre] at hr
                    dsimp only at hr
                    cases hlz : lzf data r with
                    | none => rw [hlz] at hr; simp at hr
                    | some out =>
                      rw [hlz] at hr
                      simp at hr
                      rw [← hr.2, read_exact_rest hre, skip_rest hs]
            · rw [if_neg h3] at hr
              simp at hr

/-- C3 witness: a concrete two-byte blob on which both paths succeed and
leave the same (empty) suffix. -/
theorem c3_witness :
    read_blob lzf_none [2, 10, 20] = .ok ([10, 20], []) ∧
    skip_blob [2, 10, 20] = .ok ((), []) ∧ ([] : List Nat) = [] :=
  ⟨rfl, rfl, c3_read_blob_skip_blob_same_consumption lzf_none [2, 10, 20]
    [10, 20] [] [] rfl rfl⟩

/-- C1: a ZSET_ZIPLIST record whose inner ziplist declares `zllen = 2`
entries (one member/score pair).  The parse succeeds, `start_sorted_set`
receives the count 2, but only one `sorted_set_element` event is emitted —
the count passed to the start event does not equal the number of element
events, contradicting the container-count invariant. -/
theorem c1_zset_ziplist_count_mismatch :
    read_sortedset_ziplist lzf_none none [107]
        [17, 0, 0, 0, 0, 0, 0, 0, 0, 2, 0, 0, 1, 97, 0, 1, 49, 255] =
      .ok ([.start_sorted_set [107] 2 none (.Ziplist 17),
            .sorted_set_element [107] (.parsed [49]) [97],
            .end_sorted_set [107]], []) ∧
    List.countP (fun e => match e with
        | Event.sorted_set_element _ _ _ => true
        | _ => false)
      [Event.start_sorted_set [107] 2 none (.Ziplist 17),
       Event.sorted_set_element [107] (.parsed [49]) [97],
       Event.end_sorted_set [107]] = 1 :=
  ⟨rfl, rfl⟩

/-- C2: an RDB accepted by `parse` under the allow-all filter (a single
ZSET v1 record whose score is the one-byte NaN marker 253) on which the
deny-all run is not cursor-equivalent: `skip_blob` reads the raw score
length byte 253 as a length-encoded header (encoding code 61) and panics,
so the deny-all run emits no `end_database`/`end_rdb` events at all. -/
theorem c2_skip_not_cursor_equivalent :
    parse lzf_none allow_all
        [82, 69, 68, 73, 83, 48, 48, 48, 51, 3, 1, 97, 1, 1, 98, 253, 255] =
      .ok [.start_rdb,
           .start_sorted_set [97] 1 none .Hashtable,
           .sorted_set_element [97] .nan [98],
           .end_sorted_set [97],
           .end_database 0,
           .end_rdb] ∧
    parse lzf_none deny_all
        [82, 69, 68, 73, 83, 48, 48, 48, 51, 3, 1, 97, 1, 1, 98, 253, 255] =
      .error (.panicked "Unknown encoding: 61") :=
  ⟨rfl, rfl⟩

/-- C4 counterexample: a LIST_QUICKLIST record with one inner ziplist
holding one entry.  The dispatcher emits `start_set`/`end_set` framing
events, and no `start_list` event occurs anywhere in the stream, so the
claimed `start_list`/`end_list` shape is false on the code. -/
theorem c4_quicklist_emits_set_events :
    read_quicklist lzf_none none [107]
        [1, 14, 0, 0, 0, 0, 0, 0, 0, 0, 1, 0, 0, 1, 97, 255] =
      .ok ([.start_set [107] 0 none .Quicklist,
            .list_element [107] [97],
            .end_set [107]], []) ∧
    List.all
      [Event.start_set [107] 0 none .Quicklist,
       Event.list_element [107] [97],
       Event.end_set [107]]
      (fun e => match e with
        | Event.start_list _ _ _ _ => false
        | Event.end_list _ => false
        | _ => true) = true :=
  ⟨rfl, rfl⟩

/-- C5 counterexample: `read_blob` on the encoded length byte 196
(encoding code 4, which is none of INT8/INT16/INT32/LZF) panics instead of
returning a Corrupt error result, and on an LZF payload whose decompressor
fails it panics via `.unwrap()`; in neither case is an error result
returned. -/
theorem c5_read_blob_panics :
    read_blob lzf_none [196] = .error (.panicked "Unknown encoding: 4") ∧
    read_blob lzf_none [195, 1, 1, 0] =
      .error (.panicked "lzf decompress failed") ∧
    (match read_blob lzf_none [196] with
     | .error (.err _) => true
     | _ => false) = false ∧
    (match read_blob lzf_none [195, 1, 1, 0] with
     | .error (.err _) => true
     | _ => false) = false :=
  ⟨rfl, rfl, rfl, rfl⟩

/-- C6: a zipmap whose header byte `zmlen` is 254 (one field/value pair,
then the terminator).  The code takes the `zmlen <= 254` branch and uses
254 as the literal pair count: `start_hash` receives the count 254 and the
loop decrements from 254, rather than treating the count as unknown (the
`zmlen = 255` input shows the unknown branch, with start count 0). -/
theorem c6_zipmap_254_treated_as_literal :
    read_hash_zipmap lzf_none none [107] [7, 254, 1, 102, 1, 0, 118, 255] =
      .ok ([.start_hash [107] 254 none (.Zipmap 7),
            .hash_element [107] [102] [118],
            .end_hash [107]], []) ∧
    read_hash_zipmap lzf_none none [107] [7, 255, 1, 102, 1, 0, 118, 255] =
      .ok ([.start_hash [107] 0 none (.Zipmap 7),
            .hash_element [107] [102] [118],
            .end_hash [107]], []) :=
  ⟨rfl, rfl⟩

/-- C10: on the minimal accepted RDB (magic, version 3, EOF), `parse`
emits `end_database 0` and `end_rdb` although no `start_database` event was
ever emitted. -/
theorem c10_end_database_without_start :
    parse lzf_none allow_all [82, 69, 68, 73, 83, 48, 48, 48, 51, 255] =
      .ok [.start_rdb, .end_database 0, .end_rdb] ∧
    List.all [Event.start_rdb, Event.end_database 0, Event.end_rdb]
      (fun e => match e with
        | Event.start_database _ => false
        | _ => true) = true ∧
    List.any [Event.start_rdb, Event.end_database 0, Event.end_rdb]
      (fun e => match e with
        | Event.end_database _ => true
        | _ => false) = true :=
  ⟨rfl, rfl, rfl⟩

/-- C5 amended: `read_blob`, given an encoded length whose code is not
INT8, INT16, INT32 or LZF, panics with "Unknown encoding"; and given the
LZF code, if the decompressor fails (in particular when it cannot produce
the declared byte count), it panics via `.unwrap()` — in both cases a
fatal panic, not an error result. -/
theorem c5_amended_read_blob_panic_behaviour :
    (∀ lzf b rest, (b &&& 0xC0) >>> 6 = 3 → 4 ≤ b &&& 0x3F →
       read_blob lzf (b :: rest) =
         .error (.panicked ("Unknown encoding: " ++ Nat.repr (b &&& 0x3F)))) ∧
    (∀ lzf b rest c rest1 r rest2 data rest3,
       (b &&& 0xC0) >>> 6 = 3 → b &&& 0x3F = 3 →
       read_length rest = .ok (c, rest1) →
       read_length rest1 = .ok (r, rest2) →
       read_exact c rest2 = .ok (data, rest3) →
       lzf data r = none →
       read_blob lzf (b :: rest) = .error (.panicked "lzf decompress failed")) := by
  constructor
  · intro lzf b rest h3 h4
    have hl : read_length_with_encoding (b :: rest) = .ok ((b &&& 0x3F, true), rest) := by
      unfold read_length_with_encoding readU8
      simp [h3, constant.RDB_ENCVAL]
    unfold read_blob
    rw [hl]
    have e0 : ¬(b &&& 0x3F = encoding.INT8) := by unfold encoding.INT8; omega
    have e1 : ¬(b &&& 0x3F = encoding.INT16) := by unfold encoding.INT16; omega
    have e2 : ¬(b &&& 0x3F = encoding.INT32) := by unfold encoding.INT32; omega
    have e3 : ¬(b &&& 0x3F = encoding.LZF) := by unfold encoding.LZF; omega
    simp [e0, e1, e2, e3]
  · intro lzf b rest c rest1 r rest2 data rest3 h3 hcode hc hr hre hlz
    have hl : read_length_with_encoding (b :: rest) = .ok ((b &&& 0x3F, true), rest) := by
      unfold read_length_with_encoding readU8
      simp [h3, constant.RDB_ENCVAL]
    have e0 : ¬(b &&& 0x3F = encoding.INT8) := by unfold encoding.INT8; omega
    have e1 : ¬(b &&& 0x3F = encoding.INT16) := by unfold encoding.INT16; omega
    have e2 : ¬(b &&& 0x3F = encoding.INT32) := by unfold encoding.INT32; omega
    have e3 : b &&& 0x3F = encoding.LZF := hcode
    unfold read_blob
    rw [hl]
    dsimp only
    rw [if_pos rfl, if_neg e0, if_neg e1, if_neg e2, if_pos e3, hc]
    dsimp only
    rw [hr]
    dsimp only
    rw [hre]
    dsimp only
    rw [hlz]

/-- C5 amended witness: concrete instances of both panic behaviours. -/
theorem c5_amended_witness :
    read_blob lzf_none [196] =
      .error (.panicked ("Unknown encoding: " ++ Nat.repr (196 &&& 0x3F))) ∧
    read_blob lzf_none [195, 1, 1, 0] =
      .error (.panicked "lzf decompress failed") :=
  ⟨c5_amended_read_blob_panic_behaviour.1 lzf_none 196 [] (by decide) (by decide),
   c5_amended_read_blob_panic_behaviour.2 lzf_none 195 [1, 1, 0] 1 [1, 0] 1 [0]
     [0] [] (by decide) (by decide) rfl rfl rfl rfl⟩

/-- XOR of bit-disjoint operands is addition: a multiple of `2 ^ i` XORed
with a value below `2 ^ i`. -/
theorem two_pow_mul_xor_eq_add {i : Nat} (a : Nat) {b : Nat} (hb : b < 2 ^ i) :
    (2 ^ i * a) ^^^ b = 2 ^ i * a + b := by
  rw [Nat.mul_add_lt_is_or hb a]
  apply Nat.eq_of_testBit_eq
  intro j
  simp only [Nat.testBit_xor, Nat.testBit_or, Nat.testBit_mul_pow_two]
  by_cases hj : j < i
  · have hn : ¬(j ≥ i) := by omega
    simp [hn]
  · have hji : j ≥ i := by omega
    have hbj : b < 2 ^ j := lt_of_lt_of_le hb (Nat.pow_le_pow_right (by omega) hji)
    simp [hji, Nat.testBit_lt_two_pow hbj]

/-- Specification-side definition, following the words of the spec:
interpret the three bytes as a little-endian 24-bit integer and sign-extend
from bit 23 to a signed 32-bit value. -/
def signExtend24LE (b0 b1 b2 : Nat) : Int :=
  if b0 + 256 * b1 + 65536 * b2 < 8388608 then
    ((b0 + 256 * b1 + 65536 * b2 : Nat) : Int)
  else ((b0 + 256 * b1 + 65536 * b2 : Nat) : Int) - 16777216

/-- C7: for every 3-byte input, the XOR-then-arithmetic-shift expression of
the 24-bit integer path of `read_ziplist_entry` returns exactly the
little-endian 24-bit value sign-extended from bit 23. -/
theorem c7_twenty_four_bit_sign_extension (b0 b1 b2 : Nat)
    (h0 : b0 < 256) (h1 : b1 < 256) (h2 : b2 < 256) :
    twentyFourBitNumber b0 b1 b2 = signExtend24LE b0 b1 b2 := by
  have e1 : (b2 <<< 24) ^^^ (b1 <<< 16) = 2 ^ 24 * b2 + 2 ^ 16 * b1 := by
    rw [Nat.shiftLeft_eq, Nat.shiftLeft_eq, Nat.mul_comm b2, Nat.mul_comm b1]
    exact two_pow_mul_xor_eq_add b2 (by omega)
  have e2 : ((2 : Nat) ^ 24 * b2 + 2 ^ 16 * b1) ^^^ (b0 <<< 8) =
      2 ^ 24 * b2 + 2 ^ 16 * b1 + 2 ^ 8 * b0 := by
    have hrw : (2 : Nat) ^ 24 * b2 + 2 ^ 16 * b1 = 2 ^ 16 * (2 ^ 8 * b2 + b1) := by
      ring
    rw [hrw, Nat.shiftLeft_eq, Nat.mul_comm b0]
    rw [two_pow_mul_xor_eq_add (2 ^ 8 * b2 + b1) (show (2 : Nat) ^ 8 * b0 < 2 ^ 16 by omega)]
  have e3 : ((2 : Nat) ^ 24 * b2 + 2 ^ 16 * b1 + 2 ^ 8 * b0) ^^^ 48 =
      2 ^ 24 * b2 + 2 ^ 16 * b1 + 2 ^ 8 * b0 + 48 := by
    have hrw : (2 : Nat) ^ 24 * b2 + 2 ^ 16 * b1 + 2 ^ 8 * b0 =
        2 ^ 8 * (2 ^ 16 * b2 + 2 ^ 8 * b1 + b0) := by ring
    rw [hrw]
    rw [two_pow_mul_xor_eq_add (2 ^ 16 * b2 + 2 ^ 8 * b1 + b0)
      (show (48 : Nat) < 2 ^ 8 by norm_num)]
  unfold twentyFourBitNumber
  rw [e1, e2, e3]
  unfold toI32 signExtend24LE
  have hlt : 2 ^ 24 * b2 + 2 ^ 16 * b1 + 2 ^ 8 * b0 + 48 < 4294967296 := by omega
  rw [Nat.mod_eq_of_lt hlt]
  rw [Int.fdiv_eq_ediv _ (by norm_num)]
  split_ifs <;> push_cast <;> omega

/-- C7 witness: the bytes `0, 0, 255` decode to the negative value −65536
on both the code expression and the specification sign extension. -/
theorem c7_witness :
    twentyFourBitNumber 0 0 255 = signExtend24LE 0 0 255 ∧
    twentyFourBitNumber 0 0 255 = -65536 :=
  ⟨c7_twenty_four_bit_sign_extension 0 0 255 (by decide) (by decide) (by decide),
   by decide⟩

theorem error_eq_panicked {α : Type} {e : Fail} {s : String}
    (h : (Except.error e : Except Fail α) = .error (.panicked s)) : e = .panicked s := by
  injection h

theorem readU8_no_panic (input : List Nat) (s : String) :
    readU8 input ≠ .error (.panicked s) := by
  cases input <;> simp [readU8]

theorem read_exact_no_panic (n : Nat) (input : List Nat) (s : String) :
    read_exact n input ≠ .error (.panicked s) := by
  unfold read_exact
  split <;> simp

theorem readU16LE_no_panic (input : List Nat) (s : String) :
    readU16LE input ≠ .error (.panicked s) := by
  unfold readU16LE
  split <;> simp

theorem readU32LE_no_panic (input : List Nat) (s : String) :
    readU32LE input ≠ .error (.panicked s) := by
  unfold readU32LE
  split <;> simp

theorem readU32BE_no_panic (input : List Nat) (s : String) :
    readU32BE input ≠ .error (.panicked s) := by
  unfold readU32BE
  split <;> simp

theorem readU64LE_no_panic (input : List Nat) (s : String) :
    readU64LE input ≠ .error (.panicked s) := by
  unfold readU64LE
  split <;> simp

theorem readI8_no_panic (input : List Nat) (s : String) :
    readI8 input ≠ .error (.panicked s) := by
  unfold readI8
  cases h : readU8 input with
  | error e =>
    intro hc
    exact readU8_no_panic input s (h.trans (by rw [error_eq_panicked hc]))
  | ok p => obtain ⟨b, t⟩ := p; simp

theorem readI16LE_no_panic (input : List Nat) (s : String) :
    readI16LE input ≠ .error (.panicked s) := by
  unfold readI16LE
  cases h : readU16LE input with
  | error e =>
    intro hc
    exact readU16LE_no_panic input s (h.trans (by rw [error_eq_panicked hc]))
  | ok p => obtain ⟨b, t⟩ := p; simp

theorem readI32LE_no_panic (input : List Nat) (s : String) :
    readI32LE input ≠ .error (.panicked s) := by
  unfold readI32LE
  cases h : readU32LE input with
  | error e =>
    intro hc
    exact readU32LE_no_panic input s (h.trans (by rw [error_eq_panicked hc]))
  | ok p => obtain ⟨b, t⟩ := p; simp

theorem readI64LE_no_panic (input : List Nat) (s : String) :
    readI64LE input ≠ .error (.panicked s) := by
  unfold readI64LE
  cases h : readU64LE input with
  | error e =>
    intro hc
    exact readU64LE_no_panic input s (h.trans (by rw [error_eq_panicked hc]))
  | ok p => obtain ⟨b, t⟩ := p; simp

/-- Masking with a constant below 256 only sees the low byte. -/
theorem and_mask_mod (x m : Nat) (hm : m < 256) : x &&& m = (x % 256) &&& m := by
  apply Nat.eq_of_testBit_eq
  intro j
  rw [show (256 : Nat) = 2 ^ 8 from rfl]
  simp only [Nat.testBit_and, Nat.testBit_mod_two_pow]
  by_cases hj : j < 8
  · simp [hj]
  · have hmj : m < 2 ^ j := by
      calc m < 256 := hm
        _ = 2 ^ 8 := by norm_num
        _ ≤ 2 ^ j := Nat.pow_le_pow_right (by omega) (by omega)
    simp [Nat.testBit_lt_two_pow hmj]

/-- When the top two flag bits are `11`, the high nibble necessarily lies in
12–15. -/
theorem flag_nibble_in_range (flag : Nat) (h : (flag &&& 0xC0) >>> 6 = 3) :
    (flag &&& 0xF0) >>> 4 = 12 ∨ (flag &&& 0xF0) >>> 4 = 13 ∨
    (flag &&& 0xF0) >>> 4 = 14 ∨ (flag &&& 0xF0) >>> 4 = 15 := by
  have hball : ∀ y, y < 256 → (y &&& 192) >>> 6 = 3 →
      (y &&& 240) >>> 4 = 12 ∨ (y &&& 240) >>> 4 = 13 ∨
      (y &&& 240) >>> 4 = 14 ∨ (y &&& 240) >>> 4 = 15 := by decide
  have h1 : flag &&& 192 = (flag % 256) &&& 192 := and_mask_mod flag 192 (by norm_num)
  have h2 : flag &&& 240 = (flag % 256) &&& 240 := and_mask_mod flag 240 (by norm_num)
  rw [show (0xF0 : Nat) = 240 from rfl, h2]
  exact hball (flag % 256) (Nat.mod_lt _ (by norm_num))
    (by rw [← h1]; exact h)

/-- Whether a result is a panic outcome. -/
def is_panicked {α : Type} : Except Fail α → Bool
  | .error (.panicked _) => true
  | _ => false

theorem read_ziplist_entry_no_panic (zl : List Nat) (s : String) :
    read_ziplist_entry zl ≠ .error (.panicked s) := by
  intro h
  unfold read_ziplist_entry at h
  cases h8 : readU8 zl with
  | error e =>
    rw [h8] at h
    dsimp only at h
    exact readU8_no_panic zl s (h8.trans (by rw [error_eq_panicked h]))
  | ok p =>
    obtain ⟨byte, zl1⟩ := p
    rw [h8] at h
    dsimp only at h
    cases hpl : (if byte = 254 then
        (if zl1.length < 4 then
          Except.error (Fail.err (RdbError.Other
            "Could not read 4 bytes to skip after ziplist length"))
         else Except.ok (zl1.drop 4))
        else Except.ok zl1) with
    | error e =>
      rw [hpl] at h
      dsimp only at h
      rw [error_eq_panicked h] at hpl
      split at hpl
      · split at hpl <;> simp at hpl
      · simp at hpl
    | ok zl2 =>
      rw [hpl] at h
      dsimp only at h
      cases h9 : readU8 zl2 with
      | error e =>
        rw [h9] at h
        dsimp only at h
        exact readU8_no_panic zl2 s (h9.trans (by rw [error_eq_panicked h]))
      | ok q =>
        obtain ⟨flag, zl3⟩ := q
        rw [h9] at h
        dsimp only at h
        by_cases c0 : (flag &&& 0xC0) >>> 6 = 0
        · rw [if_pos c0] at h
          cases hre : read_exact (flag &&& 0x3F) zl3 with
          | error e =>
            rw [hre] at h
            dsimp only at h
            exact read_exact_no_panic _ zl3 s (hre.trans (by rw [error_eq_panicked h]))
          | ok r => obtain ⟨v, zl4⟩ := r; rw [hre] at h; simp at h
        · rw [if_neg c0] at h
          by_cases c1 : (flag &&& 0xC0) >>> 6 = 1
          · rw [if_pos c1] at h
            cases h10 : readU8 zl3 with
            | error e =>
              rw [h10] at h
              dsimp only at h
              exact readU8_no_panic zl3 s (h10.trans (by rw [error_eq_panicked h]))
            | ok q2 =>
              obtain ⟨nb, zl4⟩ := q2
              rw [h10] at h
              dsimp only at h
              cases hre : read_exact (((flag &&& 0x3F) <<< 8) ||| nb) zl4 with
              | error e =>
                rw [hre] at h
                dsimp only at h
                exact read_exact_no_panic _ zl4 s (hre.trans (by rw [error_eq_panicked h]))
              | ok r => obtain ⟨v, zl5⟩ := r; rw [hre] at h; simp at h
          · rw [if_neg c1] at h
            by_cases c2 : (flag &&& 0xC0) >>> 6 = 2
            · rw [if_pos c2] at h
              cases h11 : readU32BE zl3 with
              | error e =>
                rw [h11] at h
                dsimp only at h
                exact readU32BE_no_panic zl3 s (h11.trans (by rw [error_eq_panicked h]))
              | ok q2 =>
                obtain ⟨len, zl4⟩ := q2
                rw [h11] at h
                dsimp only at h
                cases hre : read_exact len zl4 with
                | error e =>
                  rw [hre] at h
                  dsimp only at h
                  exact read_exact_no_panic _ zl4 s (hre.trans (by rw [error_eq_panicked h]))
                | ok r => obtain ⟨v, zl5⟩ := r; rw [hre] at h; simp at h
            · rw [if_neg c2] at h
              by_cases n12 : (flag &&& 0xF0) >>> 4 = 0xC
              · rw [if_pos n12] at h
                cases hri : readI16LE zl3 with
                | error e =>
                  rw [hri] at h
                  dsimp only at h
                  exact readI16LE_no_panic zl3 s (hri.trans (by rw [error_eq_panicked h]))
                | ok r => obtain ⟨v, zl4⟩ := r; rw [hri] at h; simp at h
              · rw [if_neg n12] at h
                by_cases n13 : (flag &&& 0xF0) >>> 4 = 0xD
                · rw [if_pos n13] at h
                  cases hri : readI32LE zl3 with
                  | error e =>
                    rw [hri] at h
                    dsimp only at h
                    exact readI32LE_no_panic zl3 s (hri.trans (by rw [error_eq_panicked h]))
                  | ok r => obtain ⟨v, zl4⟩ := r; rw [hri] at h; simp at h
                · rw [if_neg n13] at h
                  by_cases n14 : (flag &&& 0xF0) >>> 4 = 0xE
                  · rw [if_pos n14] at h
                    cases hri : readI64LE zl3 with
                    | error e =>
                      rw [hri] at h
                      dsimp only at h
                      exact readI64LE_no_panic zl3 s (hri.trans (by rw [error_eq_panicked h]))
                    | ok r => obtain ⟨v, zl4⟩ := r; rw [hri] at h; simp at h
                  · rw [if_neg n14] at h
                    by_cases n15 : (flag &&& 0xF0) >>> 4 = 0xF
                    · rw [if_pos n15] at h
                      by_cases l0 : flag &&& 0xF = 0
                      · rw [if_pos l0] at h
                        by_cases hlen : zl3.length < 3
                        · rw [if_pos hlen] at h
                          simp at h
                        · rw [if_neg hlen] at h
                          simp at h
                      · rw [if_neg l0] at h
                        by_cases le : flag &&& 0xF = 0xE
                        · rw [if_pos le] at h
                          cases hri : readI8 zl3 with
                          | error e =>
                            rw [hri] at h
                            dsimp only at h
                            exact readI8_no_panic zl3 s
                              (hri.trans (by rw [error_eq_panicked h]))
                          | ok r => obtain ⟨v, zl4⟩ := r; rw [hri] at h; simp at h
                        · rw [if_neg le] at h
                          simp at h
                    · -- the unreachable "Flag not handled" branch
                      have hle : (flag &&& 0xC0) >>> 6 ≤ 3 := by
                        have := Nat.and_le_right (n := flag) (m := 0xC0)
                        rw [Nat.shiftRight_eq_div_pow]
                        omega
                      have hc3 : (flag &&& 0xC0) >>> 6 = 3 := by omega
                      rcases flag_nibble_in_range flag hc3 with hn | hn | hn | hn
                      · exact n12 hn
                      · exact n13 hn
                      · exact n14 hn
                      · exact n15 hn

/-- C9: `read_ziplist_entry` never panics on any input: in particular the
catch-all "Flag not handled" branch is unreachable, because whenever the
top two bits of the flag byte are `11` the high nibble necessarily lies in
12–15 and one of the integer branches applies. -/
theorem c9_flag_panic_unreachable (zl : List Nat) :
    is_panicked (read_ziplist_entry zl) = false := by
  cases h : read_ziplist_entry zl with
  | error e =>
    cases e with
    | err e2 => rfl
    | panicked s => exact absurd h (read_ziplist_entry_no_panic zl s)
  | ok p => rfl

/-- C8: across one iteration of the record loop, `last_expiretime` is set
only by the EXPIRETIME_MS and EXPIRETIME opcodes (every other opcode leaves
it unchanged or clears it), and after a value record — materialized via
`read_type` or skipped via `skip_object`/`skip_key_and_object` — it is
unconditionally `none`; hence an expiration is attached to at most one
subsequent record. -/
theorem c8_last_expiretime_discipline (lzf : Lzf) (filter : Filter) (st : PState)
    (b : Nat) (rest : List Nat) (out : List Event × PState × List Nat × Bool)
    (h : parseStep lzf filter st (b :: rest) = .ok out) :
    ((b ≠ op_code.EXPIRETIME_MS ∧ b ≠ op_code.EXPIRETIME) →
      (out.2.1.last_expiretime = st.last_expiretime ∨ out.2.1.last_expiretime = none)) ∧
    ((b ≠ op_code.AUX ∧ b ≠ op_code.RESIZEDB ∧ b ≠ op_code.EXPIRETIME_MS ∧
      b ≠ op_code.EXPIRETIME ∧ b ≠ op_code.SELECTDB ∧ b ≠ op_code.EOF) →
      out.2.1.last_expiretime = none) := by
  unfold parseStep at h
  simp only [readU8] at h
  by_cases hsel : b = op_code.SELECTDB
  · rw [if_pos hsel] at h
    cases hu : unwrap_or_panic (read_length rest) with
    | error e => rw [hu] at h; simp at h
    | ok p =>
      obtain ⟨db, rest1⟩ := p
      rw [hu] at h
      dsimp only at h
      injection h with h
      subst h
      exact ⟨fun _ => Or.inl rfl, fun hh => absurd hsel hh.2.2.2.2.1⟩
  · rw [if_neg hsel] at h
    by_cases heof : b = op_code.EOF
    · rw [if_pos heof] at h
      try dsimp only at h
      injection h with h
      subst h
      exact ⟨fun _ => Or.inl rfl, fun hh => absurd heof hh.2.2.2.2.2⟩
    · rw [if_neg heof] at h
      by_cases hms : b = op_code.EXPIRETIME_MS
      · exact ⟨fun hh => absurd hms hh.1, fun hh => absurd hms hh.2.2.1⟩
      · rw [if_neg hms] at h
        by_cases hexp : b = op_code.EXPIRETIME
        · exact ⟨fun hh => absurd hexp hh.2, fun hh => absurd hexp hh.2.2.2.1⟩
        · rw [if_neg hexp] at h
          by_cases hrs : b = op_code.RESIZEDB
          · rw [if_pos hrs] at h
            cases h1 : read_length rest with
            | error e => rw [h1] at h; simp at h
            | ok p =>
              obtain ⟨a1, r1⟩ := p
              rw [h1] at h
              dsimp only at h
              cases h2 : read_length r1 with
              | error e => rw [h2] at h; simp at h
              | ok q =>
                obtain ⟨a2, r2⟩ := q
                rw [h2] at h
                dsimp only at h
                injection h with h
                subst h
                exact ⟨fun _ => Or.inl rfl, fun hh => absurd hrs hh.2.1⟩
          · rw [if_neg hrs] at h
            by_cases hax : b = op_code.AUX
            · rw [if_pos hax] at h
              cases h1 : read_blob lzf rest with
              | error e => rw [h1] at h; simp at h
              | ok p =>
                obtain ⟨k1, r1⟩ := p
                rw [h1] at h
                dsimp only at h
                cases h2 : read_blob lzf r1 with
                | error e => rw [h2] at h; simp at h
                | ok q =>
                  obtain ⟨v1, r2⟩ := q
                  rw [h2] at h
                  dsimp only at h
                  injection h with h
                  subst h
                  exact ⟨fun _ => Or.inl rfl, fun hh => absurd hax hh.1⟩
            · rw [if_neg hax] at h
              by_cases hdb : filter.matches_db st.last_database = true
              · rw [if_pos hdb] at h
                cases h1 : read_blob lzf rest with
                | error e => rw [h1] at h; simp at h
                | ok p =>
                  obtain ⟨key, r1⟩ := p
                  rw [h1] at h
                  dsimp only at h
                  by_cases hmk : filter.matches_type b = true ∧
                      filter.matches_key key = true
                  · rw [if_pos hmk] at h
                    cases h2 : read_type lzf st.last_expiretime key b r1 with
                    | error e => rw [h2] at h; simp at h
                    | ok q =>
                      obtain ⟨evs, r2⟩ := q
                      rw [h2] at h
                      dsimp only at h
                      injection h with h
                      subst h
                      exact ⟨fun _ => Or.inr rfl, fun _ => rfl⟩
                  · rw [if_neg hmk] at h
                    cases h2 : skip_object b r1 with
                    | error e => rw [h2] at h; simp at h
                    | ok q =>
                      obtain ⟨u, r2⟩ := q
                      rw [h2] at h
                      dsimp only at h
                      injection h with h
                      subst h
                      exact ⟨fun _ => Or.inr rfl, fun _ => rfl⟩
              · rw [if_neg hdb] at h
                cases h1 : skip_key_and_object b rest with
                | error e => rw [h1] at h; simp at h
                | ok p =>
                  obtain ⟨u, r1⟩ := p
                  rw [h1] at h
                  dsimp only at h
                  injection h with h
                  subst h
                  exact ⟨fun _ => Or.inr rfl, fun _ => rfl⟩

/-- C8 witness: a STRING value record with a pending expiration; the step
succeeds, attaches the expiration to the emitted `set` event, and resets
`last_expiretime` to `none`. -/
theorem c8_witness :
    ((0 ≠ op_code.EXPIRETIME_MS ∧ 0 ≠ op_code.EXPIRETIME) →
      ((([Event.set [97] [98] (some 7)], PState.mk none 0, ([] : List Nat), false) :
          List Event × PState × List Nat × Bool).2.1.last_expiretime =
            (PState.mk (some 7) 0).last_expiretime ∨
       (([Event.set [97] [98] (some 7)], PState.mk none 0, ([] : List Nat), false) :
          List Event × PState × List Nat × Bool).2.1.last_expiretime = none)) ∧
    ((0 ≠ op_code.AUX ∧ 0 ≠ op_code.RESIZEDB ∧ 0 ≠ op_code.EXPIRETIME_MS ∧
      0 ≠ op_code.EXPIRETIME ∧ 0 ≠ op_code.SELECTDB ∧ 0 ≠ op_code.EOF) →
      (([Event.set [97] [98] (some 7)], PState.mk none 0, ([] : List Nat), false) :
          List Event × PState × List Nat × Bool).2.1.last_expiretime = none) :=
  c8_last_expiretime_discipline lzf_none allow_all (PState.mk (some 7) 0) 0
    [1, 97, 1, 98]
    ([Event.set [97] [98] (some 7)], PState.mk none 0, [], false) rfl

theorem read_quicklist_ziplist_entries_spec (key : List Nat) :
    ∀ (n : Nat) (zl : List Nat) (evs : List Event) (zl2 : List Nat),
      read_quicklist_ziplist_entries key n zl = .ok (evs, zl2) →
      evs.length = n ∧ ∀ e ∈ evs, ∃ v, e = Event.list_element key v := by
  intro n
  induction n with
  | zero =>
    intro zl evs zl2 h
    unfold read_quicklist_ziplist_entries at h
    simp only [Except.ok.injEq, Prod.mk.injEq] at h
    obtain ⟨h1, h2⟩ := h
    subst h1
    simp
  | succ n ih =>
    intro zl evs zl2 h
    unfold read_quicklist_ziplist_entries at h
    cases h1 : read_ziplist_entry_string zl with
    | error e => rw [h1] at h; simp at h
    | ok p =>
      obtain ⟨entry, zlA⟩ := p
      rw [h1] at h
      dsimp only at h
      cases h2 : read_quicklist_ziplist_entries key n zlA with
      | error e => rw [h2] at h; simp at h
      | ok q =>
        obtain ⟨evsA, zlB⟩ := q
        rw [h2] at h
        dsimp only at h
        simp only [Except.ok.injEq, Prod.mk.injEq] at h
        obtain ⟨h3, h4⟩ := h
        subst h3
        obtain ⟨hlen, hall⟩ := ih zlA evsA zlB h2
        refine ⟨by simp [hlen], ?_⟩
        intro e he
        rcases List.mem_cons.mp he with rfl | hmem
        · exact ⟨entry, rfl⟩
        · exact hall e hmem

theorem read_quicklist_ziplist_elements (lzf : Lzf) (key input : List Nat)
    (evs : List Event) (rest : List Nat)
    (h : read_quicklist_ziplist lzf key input = .ok (evs, rest)) :
    ∀ e ∈ evs, ∃ v, e = Event.list_element key v := by
  unfold read_quicklist_ziplist at h
  cases hb : read_blob lzf input with
  | error e => rw [hb] at h; simp at h
  | ok p =>
    obtain ⟨zl, input1⟩ := p
    rw [hb] at h
    dsimp only at h
    cases hm : read_ziplist_metadata zl with
    | error e => rw [hm] at h; simp at h
    | ok q =>
      obtain ⟨⟨zlb, zlt, zllen⟩, reader⟩ := q
      rw [hm] at h
      dsimp only at h
      cases he : read_quicklist_ziplist_entries key zllen reader with
      | error e => rw [he] at h; simp at h
      | ok r =>
        obtain ⟨evsA, reader2⟩ := r
        rw [he] at h
        dsimp only at h
        cases h8 : readU8 reader2 with
        | error e => rw [h8] at h; simp at h
        | ok s =>
          obtain ⟨lb, r3⟩ := s
          rw [h8] at h
          dsimp only at h
          by_cases ht : lb ≠ 0xFF
          · rw [if_pos ht] at h; simp at h
          · rw [if_neg ht] at h
            simp only [Except.ok.injEq, Prod.mk.injEq] at h
            obtain ⟨h3, h4⟩ := h
            subst h3
            exact (read_quicklist_ziplist_entries_spec key zllen reader evsA
              reader2 he).2

theorem read_quicklist_parts_elements (lzf : Lzf) (key : List Nat) :
    ∀ (n : Nat) (input : List Nat) (evs : List Event) (rest : List Nat),
      read_quicklist_parts lzf key n input = .ok (evs, rest) →
      ∀ e ∈ evs, ∃ v, e = Event.list_element key v := by
  intro n
  induction n with
  | zero =>
    intro input evs rest h
    unfold read_quicklist_parts at h
    simp only [Except.ok.injEq, Prod.mk.injEq] at h
    obtain ⟨h1, h2⟩ := h
    subst h1
    simp
  | succ n ih =>
    intro input evs rest h
    unfold read_quicklist_parts at h
    cases h1 : read_quicklist_ziplist lzf key input with
    | error e => rw [h1] at h; simp at h
    | ok p =>
      obtain ⟨evsA, inputA⟩ := p
      rw [h1] at h
      dsimp only at h
      cases h2 : read_quicklist_parts lzf key n inputA with
      | error e => rw [h2] at h; simp at h
      | ok q =>
        obtain ⟨evsB, inputB⟩ := q
        rw [h2] at h
        dsimp only at h
        simp only [Except.ok.injEq, Prod.mk.injEq] at h
        obtain ⟨h3, h4⟩ := h
        subst h3
        intro e he
        rcases List.mem_append.mp he with hmem | hmem
        · exact read_quicklist_ziplist_elements lzf key input evsA inputA h1 e hmem
        · exact ih inputA evsB inputB h2 e hmem

/-- C4 amended: for every LIST_QUICKLIST record the dispatcher emits
exactly one `start_set` event (count 0), then `list_element` events only —
one per ziplist entry, i.e. each inner ziplist contributes exactly as many
`list_element` events as its header `zllen` declares — then exactly one
`end_set` event; the source frames quicklists with set events, not the
`start_list`/`end_list` events of the claim. -/
theorem c4_amended_quicklist_event_shape :
    (∀ lzf exp key input evs rest,
       read_quicklist lzf exp key input = .ok (evs, rest) →
       ∃ mid, evs = Event.start_set key 0 exp EncodingType.Quicklist :: mid ++
           [Event.end_set key] ∧
         ∀ e ∈ mid, ∃ v, e = Event.list_element key v) ∧
    (∀ lzf key input evs rest blob rest1 zlb zlt zllen zcur,
       read_quicklist_ziplist lzf key input = .ok (evs, rest) →
       read_blob lzf input = .ok (blob, rest1) →
       read_ziplist_metadata blob = .ok ((zlb, zlt, zllen), zcur) →
       evs.length = zllen ∧ ∀ e ∈ evs, ∃ v, e = Event.list_element key v) := by
  constructor
  · intro lzf exp key input evs rest h
    unfold read_quicklist at h
    cases h1 : read_length input with
    | error e => rw [h1] at h; simp at h
    | ok p =>
      obtain ⟨len, input1⟩ := p
      rw [h1] at h
      dsimp only at h
      cases h2 : read_quicklist_parts lzf key len input1 with
      | error e => rw [h2] at h; simp at h
      | ok q =>
        obtain ⟨mid, input2⟩ := q
        rw [h2] at h
        dsimp only at h
        simp only [Except.ok.injEq, Prod.mk.injEq] at h
        obtain ⟨h3, h4⟩ := h
        subst h3
        exact ⟨mid, rfl, read_quicklist_parts_elements lzf key len input1 mid
          input2 h2⟩
  · intro lzf key input evs rest blob rest1 zlb zlt zllen zcur h hb hm
    have hall := read_quicklist_ziplist_elements lzf key input evs rest h
    unfold read_quicklist_ziplist at h
    rw [hb] at h
    dsimp only at h
    rw [hm] at h
    dsimp only at h
    cases he : read_quicklist_ziplist_entries key zllen zcur with
    | error e => rw [he] at h; simp at h
    | ok r =>
      obtain ⟨evsA, reader2⟩ := r
      rw [he] at h
      dsimp only at h
      cases h8 : readU8 reader2 with
      | error e => rw [h8] at h; simp at h
      | ok s =>
        obtain ⟨lb, r3⟩ := s
        rw [h8] at h
        dsimp only at h
        by_cases ht : lb ≠ 0xFF
        · rw [if_pos ht] at h; simp at h
        · rw [if_neg ht] at h
          simp only [Except.ok.injEq, Prod.mk.injEq] at h
          obtain ⟨h3, h4⟩ := h
          subst h3
          exact ⟨(read_quicklist_ziplist_entries_spec key zllen zcur evsA
            reader2 he).1, hall⟩

/-- C4 amended witness: the one-entry quicklist record, instantiating both
the outer event shape and the inner per-entry count. -/
theorem c4_amended_witness :
    (∃ mid,
       ([Event.start_set [107] 0 none EncodingType.Quicklist,
         Event.list_element [107] [97], Event.end_set [107]] : List Event) =
         Event.start_set [107] 0 none EncodingType.Quicklist :: mid ++
           [Event.end_set [107]] ∧
       ∀ e ∈ mid, ∃ v, e = Event.list_element [107] v) ∧
    (([Event.list_element [107] [97]] : List Event).length = 1 ∧
     ∀ e ∈ ([Event.list_element [107] [97]] : List Event),
       ∃ v, e = Event.list_element [107] v) :=
  ⟨c4_amended_quicklist_event_shape.1 lzf_none none [107]
     [1, 14, 0, 0, 0, 0, 0, 0, 0, 0, 1, 0, 0, 1, 97, 255]
     [Event.start_set [107] 0 none EncodingType.Quicklist,
      Event.list_element [107] [97], Event.end_set [107]] [] rfl,
   c4_amended_quicklist_event_shape.2 lzf_none [107]
     [14, 0, 0, 0, 0, 0, 0, 0, 0, 1, 0, 0, 1, 97, 255]
     [Event.list_element [107] [97]] []
     [0, 0, 0, 0, 0, 0, 0, 0, 1, 0, 0, 1, 97, 255] [] 0 0 1 [0, 1, 97, 255]
     rfl rfl rfl⟩

end Rdb
